import Mathlib

/-!
Verification of the market-data retrieval-and-render pipeline of the
Capital Flow Advisory dashboard (src/js/script.js).

Shallow embedding conventions:
* JSON/JS values are the inductive `JSValue`; JS runtime numbers are `JNum`
  (NaN, +Infinity, -Infinity, or a finite value).  Finite doubles are
  idealized as exact rationals: every arithmetic step the pipeline performs
  on the claim-relevant inputs is exact in double precision, so the rational
  model agrees with the JS engine there.
* The mutable document is the record `Dom`; each presentation sink is an
  `Option` (element present in the page or not), and an `innerHTML`
  write / `appendChild` sequence is modelled structurally (a table body is a
  list of `Tr` rows, the breadth widget holds either the three percentage
  spans or a message paragraph).
* A thrown JS exception is an explicit `JsError` value; functions that can
  throw return the DOM state reached so far together with `Option JsError`.
  The text an engine attaches to a TypeError is engine-specific, so
  `JsError.typeError` carries no message and `errMessage` uses a fixed
  stand-in string that no theorem relies on.
-/

/-- A JSON/JavaScript value, as produced by `response.json()` and passed
between the functions of script.js. -/
inductive JSValue where
  | undefined
  | null
  | bool (b : Bool)
  | num (q : ℚ)
  | str (s : String)
  | arr (elems : List JSValue)
  | obj (fields : List (String × JSValue))

/-- A JavaScript runtime number: NaN, an infinity, or a finite value
(idealized as an exact rational). -/
inductive JNum where
  | nan
  | inf
  | negInf
  | fin (q : ℚ)
deriving DecidableEq

/-- A JavaScript exception: `new Error(msg)` thrown by script.js itself, or a
TypeError from a property/method access on a nullish value (whose message
text is engine-specific and not modelled). -/
inductive JsError where
  | userError (msg : String)
  | typeError
deriving DecidableEq

/-- The `message` property read by the catch handler.  The TypeError text is
engine-specific; the stand-in string below is never relied on by a claim. -/
def errMessage : JsError → String
  | .userError m => m
  | .typeError => "TypeError"

/-- Property access `v[name]` on a non-nullish value: present field of an
object, `undefined` otherwise.  (Access on `null`/`undefined` throws in JS;
the call sites in the embedding guard for that explicitly, mirroring the
source's own truthiness guards.) -/
def getField (v : JSValue) (name : String) : JSValue :=
  match v with
  | .obj fs =>
    match fs.lookup name with
    | some x => x
    | none => .undefined
  | _ => .undefined

/-- JavaScript truthiness of a JSON value (`!v` negates this). -/
def jsTruthy : JSValue → Bool
  | .undefined => false
  | .null => false
  | .bool b => b
  | .num q => q ≠ 0
  | .str s => s ≠ ""
  | .arr _ => true
  | .obj _ => true

/-- `Array.isArray`. -/
def isArray : JSValue → Bool
  | .arr _ => true
  | _ => false

/-- Is the value `null` or `undefined` (property access on it throws)? -/
def isNullish : JSValue → Bool
  | .null => true
  | .undefined => true
  | _ => false

/-- An object value (a "record" in the sense of the spec's data model). -/
def isRecord : JSValue → Bool
  | .obj _ => true
  | _ => false

/-- Elements of an array value (call sites are guarded by `Array.isArray`). -/
def jsElems : JSValue → List JSValue
  | .arr xs => xs
  | _ => []

/-- Character for the decimal digit `d % 10`. -/
def digitChar (d : Nat) : Char := Char.ofNat (48 + d % 10)

/-- Decimal digits of `n`, most significant first, with explicit fuel (fuel
`n + 1` always suffices, and the structural recursion keeps the definition
reducible). -/
def natToDigitsAux : Nat → Nat → List Char
  | 0, _ => []
  | fuel + 1, n =>
    if n < 10 then [digitChar n]
    else natToDigitsAux fuel (n / 10) ++ [digitChar (n % 10)]

/-- Decimal digits of `n`, most significant first. -/
def natToDigits (n : Nat) : List Char := natToDigitsAux (n + 1) n

/-- Decimal string of a natural number (agrees with JS integer printing). -/
def natToString (n : Nat) : String := String.mk (natToDigits n)

/-- Decimal string of an integer. -/
def intToString (i : Int) : String :=
  if i < 0 then "-" ++ natToString i.natAbs else natToString i.natAbs

/-- Exactly `k` decimal digits of `m % 10 ^ k`, most significant first
(leading zeros kept). -/
def padDigits : Nat → Nat → List Char
  | 0, _ => []
  | k + 1, m => padDigits k (m / 10) ++ [digitChar m]

/-- Multiplicity of `p` in `n` (how many times `p` divides `n`). -/
def factorCount (p n : Nat) : Nat :=
  if h : 1 < p ∧ 0 < n ∧ n % p = 0 then factorCount p (n / p) + 1 else 0
termination_by n
decreasing_by
  exact Nat.div_lt_self h.2.1 h.1

/-- String conversion of a finite JS number.  A double always has a
terminating decimal expansion, which is printed exactly (this is the
shortest round-trip form JS prints for such values); the fallback branch is
unreachable for values a JS engine can hold. -/
def qToString (q : ℚ) : String :=
  if q.den = 1 then intToString q.num
  else
    let k := max (factorCount 2 q.den) (factorCount 5 q.den)
    if q.den ∣ 10 ^ k then
      let n : Int := q.num * ((10 ^ k / q.den : Nat) : Int)
      let sign := if n < 0 then "-" else ""
      let m := n.natAbs
      sign ++ natToString (m / 10 ^ k) ++ "." ++ String.mk (padDigits k m)
    else "[nonterminating]"

mutual

/-- Template-literal string coercion of a value (`${v}` in script.js). -/
def disp : JSValue → String
  | .undefined => "undefined"
  | .null => "null"
  | .bool b => if b then "true" else "false"
  | .num q => qToString q
  | .str s => s
  | .obj _ => "[object Object]"
  | .arr xs => dispList xs

/-- `Array.prototype.toString`: elements joined by commas, with nullish
elements printed as the empty string. -/
def dispList : List JSValue → String
  | [] => ""
  | x :: r =>
    (match x with
     | .null => ""
     | .undefined => ""
     | v => disp v) ++ (if r.isEmpty then "" else ",") ++ dispList r

end

/-- Numeric value of a list of ASCII digits. -/
def digitsVal (cs : List Char) : Nat :=
  cs.foldl (fun a c => a * 10 + (c.toNat - 48)) 0

/-- Mantissa of a JS `StrDecimalLiteral`: digits, optionally a point and more
digits; returns its value and the unconsumed suffix, or `none` when no
digits are present. -/
def parseMantissa (cs : List Char) : Option (ℚ × List Char) :=
  let d1 := cs.takeWhile Char.isDigit
  let r1 := cs.dropWhile Char.isDigit
  match r1 with
  | '.' :: r2 =>
    let d2 := r2.takeWhile Char.isDigit
    let r3 := r2.dropWhile Char.isDigit
    if d1.isEmpty && d2.isEmpty then none
    else some ((digitsVal d1 : ℚ) + (digitsVal d2 : ℚ) / (10 : ℚ) ^ d2.length, r3)
  | _ => if d1.isEmpty then none else some ((digitsVal d1 : ℚ), r1)

/-- Optional exponent part `e`/`E` with sign and digits; contributes nothing
when absent or digit-less (as in JS, where the exponent only matches when it
has digits). -/
def parseExpPart (cs : List Char) : Int :=
  match cs with
  | 'e' :: r | 'E' :: r =>
    match r with
    | '+' :: r2 =>
      if (r2.takeWhile Char.isDigit).isEmpty then 0
      else (digitsVal (r2.takeWhile Char.isDigit) : Int)
    | '-' :: r2 =>
      if (r2.takeWhile Char.isDigit).isEmpty then 0
      else -(digitsVal (r2.takeWhile Char.isDigit) : Int)
    | _ =>
      if (r.takeWhile Char.isDigit).isEmpty then 0
      else (digitsVal (r.takeWhile Char.isDigit) : Int)
  | _ => 0

/-- JS `parseFloat`: skip leading whitespace, optional sign, then the longest
prefix that is `Infinity` or a decimal literal; NaN when nothing matches.
Trailing garbage is ignored. -/
def parseFloatJS (s : String) : JNum :=
  let cs := s.toList.dropWhile Char.isWhitespace
  let signed : ℚ × List Char :=
    match cs with
    | '-' :: r => (-1, r)
    | '+' :: r => (1, r)
    | _ => (1, cs)
  let sign := signed.1
  let cs2 := signed.2
  if cs2.take 8 = "Infinity".toList then (if sign = 1 then .inf else .negInf)
  else
    match parseMantissa cs2 with
    | none => .nan
    | some (v, rest) => .fin (sign * v * (10 : ℚ) ^ parseExpPart rest)

/-- JS `Number.prototype.toFixed(2)` (ECMA-262: sign split off first, then
the integer nearest `|x| * 100` with ties to the larger).  The huge-magnitude
fallback of toFixed (`|x| ≥ 10^21`) is not modelled; no pipeline input
reaches it. -/
def toFixed2 : JNum → String
  | .nan => "NaN"
  | .inf => "Infinity"
  | .negInf => "-Infinity"
  | .fin q =>
    let sign := if q < 0 then "-" else ""
    let n : Int := ⌊|q| * 100 + 1 / 2⌋
    let m := n.toNat
    sign ++ natToString (m / 100) ++ "." ++ String.mk (padDigits 2 m)

/-- JS `String.prototype.replace('%', '')`: remove the first occurrence. -/
def removeFirst (c : Char) : List Char → List Char
  | [] => []
  | x :: r => if x = c then r else x :: removeFirst c r

/-- The `change_percentage.replace('%', '')` step. -/
def stripFirstPercent (s : String) : String := String.mk (removeFirst '%' s.toList)

/-- JS division of finite values: `a / b`, NaN or a signed infinity when the
divisor is zero. -/
def jdiv (a b : ℚ) : JNum :=
  if b = 0 then (if a = 0 then .nan else if 0 < a then .inf else .negInf)
  else .fin (a / b)

/-- JS multiplication of a number by a finite constant. -/
def jmul (x : JNum) (c : ℚ) : JNum :=
  match x with
  | .nan => .nan
  | .inf => if 0 < c then .inf else if c < 0 then .negInf else .nan
  | .negInf => if 0 < c then .negInf else if c < 0 then .inf else .nan
  | .fin q => .fin (q * c)

/-- JS `Math.round`: floor of `x + 1/2` on finite values, identity on NaN and
the infinities. -/
def jround : JNum → JNum
  | .nan => .nan
  | .inf => .inf
  | .negInf => .negInf
  | .fin q => .fin ((⌊q + 1 / 2⌋ : ℤ) : ℚ)

/-- Is the number finite? -/
def isFiniteJ : JNum → Bool
  | .fin _ => true
  | _ => false

/-- A row of a movers table body: either a rendered mover `<tr>` (the three
cell texts — symbol, price (shown after a dollar sign), change (shown before
a percent sign) — and the CSS class of the change cell), or a single-cell
message row (`<tr><td colspan="3">msg</td></tr>`, used for the
"Data unavailable." placeholder and for the catch handler's error text). -/
inductive Tr where
  | mover (symbol price change cssClass : String)
  | message (msg : String)
deriving DecidableEq

/-- Content of the breadth widget: the three percentage spans
(advancing/declining/unchanged, each the value interpolated after
`Math.round`), or a message paragraph. -/
inductive BreadthContent where
  | percentages (advancing declining unchanged : JNum)
  | message (msg : String)
deriving DecidableEq

/-- Modelled from the spec: the charting collaborator (§6) accepts a
`{labels, datasets: [{data, ...style}]}` structure and renders a line chart;
it is opaque, so only the data payload is carried. -/
structure ChartConfig where
  labels : List String
  data : List ℚ
deriving DecidableEq

/-- An `<li>` of the news feed list: a rendered link or a message item. -/
inductive NewsLi where
  | item (title url : String)
  | message (msg : String)
deriving DecidableEq

/-- A `<div>` of the blogs container: a rendered entry or a message. -/
inductive BlogDiv where
  | item (title author url : String)
  | message (msg : String)
deriving DecidableEq

/-- The presentation sinks of the page.  Each field is `none` when the
corresponding element is absent from the document, and otherwise holds the
element's current content.  `chartCanvas`'s inner `Option` is the chart
currently displayed on the canvas (none before any render). -/
structure Dom where
  gainersBody : Option (List Tr)
  losersBody : Option (List Tr)
  breadthWidget : Option BreadthContent
  chartCanvas : Option (Option ChartConfig)
  newsFeedList : Option (List NewsLi)
  blogsContainer : Option (List BlogDiv)
deriving DecidableEq

/-- Rows produced by iterating a row builder over the items of an array:
the builder is applied in order and a throwing item aborts the iteration, so
the successfully built prefix is what got appended. -/
def buildRows {α : Type} (f : JSValue → Except JsError α) : List JSValue → List α
  | [] => []
  | x :: r =>
    match f x with
    | .error _ => []
    | .ok a => a :: buildRows f r

/-- The exception (if any) raised while iterating a row builder over the
items of an array. -/
def buildErr {α : Type} (f : JSValue → Except JsError α) : List JSValue → Option JsError
  | [] => none
  | x :: r =>
    match f x with
    | .error e => some e
    | .ok _ => buildErr f r

/-- The `<tr>` built by `createTableRow(item, isGainer)` for a non-nullish
item (three interpolated cells; the change cell is classed `price-up` for
gainers and `price-down` for losers). -/
def moverTr (item : JSValue) (isGainer : Bool) : Tr :=
  .mover (disp (getField item "symbol")) (disp (getField item "price"))
    (disp (getField item "change")) (if isGainer then "price-up" else "price-down")

/-- `createTableRow(item, isGainer)`: reading `item.symbol` on a nullish item
throws a TypeError; otherwise the row of `moverTr`. -/
def mkMoverRow (isGainer : Bool) (item : JSValue) : Except JsError Tr :=
  match item with
  | .null => .error .typeError
  | .undefined => .error .typeError
  | _ => .ok (moverTr item isGainer)

/-- Shape check of `renderTopMovers`:
`moversData` truthy with `gainers` and `losers` arrays. -/
def moversValid (moversData : JSValue) : Bool :=
  jsTruthy moversData && isArray (getField moversData "gainers")
    && isArray (getField moversData "losers")

/-- Clearing step of the valid path: `innerHTML = ''` on each table body that
exists. -/
def clearMovers (d : Dom) : Dom :=
  { d with gainersBody := d.gainersBody.map (fun _ => ([] : List Tr)),
           losersBody := d.losersBody.map (fun _ => ([] : List Tr)) }

/-- `moversData.gainers.forEach(item => gainersTableBody?.appendChild(...))`:
when the body is absent the optional call short-circuits (no row is even
built, so no item can throw); when present, rows are appended in input order
until an item throws. -/
def appendGainers (moversData : JSValue) (d : Dom) : Dom × Option JsError :=
  match d.gainersBody with
  | none => (d, none)
  | some rs =>
    let rows := buildRows (mkMoverRow true) (jsElems (getField moversData "gainers"))
    ({ d with gainersBody := some (rs ++ rows) },
     buildErr (mkMoverRow true) (jsElems (getField moversData "gainers")))

/-- The corresponding loop over `moversData.losers`. -/
def appendLosers (moversData : JSValue) (d : Dom) : Dom × Option JsError :=
  match d.losersBody with
  | none => (d, none)
  | some rs =>
    let rows := buildRows (mkMoverRow false) (jsElems (getField moversData "losers"))
    ({ d with losersBody := some (rs ++ rows) },
     buildErr (mkMoverRow false) (jsElems (getField moversData "losers")))

/-- The fixed placeholder text of the invalid-data paths. -/
def dataUnavailable : String := "Data unavailable."

/-- `renderTopMovers(moversData)` (script.js lines 54-80): on a failed shape
check, write the placeholder row into each table body that exists and
return; otherwise clear both bodies, append one gainer row per item (an
exception from a gainer item propagates immediately), then one loser row per
item.  The result is the document together with the escaped exception, if
any. -/
def renderTopMovers (moversData : JSValue) (d : Dom) : Dom × Option JsError :=
  if moversValid moversData then
    let d1 := clearMovers d
    let g := appendGainers moversData d1
    match g.2 with
    | some e => (g.1, some e)
    | none => appendLosers moversData g.1
  else
    ({ d with gainersBody := d.gainersBody.map (fun _ => [Tr.message dataUnavailable]),
              losersBody := d.losersBody.map (fun _ => [Tr.message dataUnavailable]) }, none)

/-- The breadth counts record (spec §3: three non-negative finite numbers;
carried as exact rationals). -/
structure BreadthCounts where
  advancing : ℚ
  declining : ℚ
  unchanged : ℚ
deriving DecidableEq

/-- `renderMarketBreadth(breadthData)` (script.js lines 82-106): nothing
happens when the widget is absent; a nullish `breadthData` writes the
placeholder; otherwise the widget shows the three rounded percentage shares
`Math.round(count / total * 100)` where `total` is the sum of the counts
(the division is unguarded when `total` is zero). -/
def renderMarketBreadth (breadthData : Option BreadthCounts) (d : Dom) : Dom :=
  match d.breadthWidget with
  | none => d
  | some _ =>
    match breadthData with
    | none => { d with breadthWidget := some (.message dataUnavailable) }
    | some b =>
      let total := b.advancing + b.declining + b.unchanged
      { d with breadthWidget := some (.percentages
          (jround (jmul (jdiv b.advancing total) 100))
          (jround (jmul (jdiv b.declining total) 100))
          (jround (jmul (jdiv b.unchanged total) 100))) }

/-- `renderMarketChart(chartData)` (script.js lines 108-122).  Modelled from
the spec: the `new Chart(ctx, ...)` call of the opaque charting collaborator
(§6) is modelled as the canvas displaying the given data; nothing happens
when the canvas element is absent (`if (ctx)`). -/
def renderMarketChart (chartData : ChartConfig) (d : Dom) : Dom :=
  { d with chartCanvas := d.chartCanvas.map (fun _ => some chartData) }

/-- `createNewsItem(item)`: reading `item.url` on a nullish item throws. -/
def mkNewsItem (item : JSValue) : Except JsError NewsLi :=
  match item with
  | .null => .error .typeError
  | .undefined => .error .typeError
  | _ => .ok (.item (disp (getField item "title")) (disp (getField item "url")))

/-- `createBlogItem(item)`: likewise. -/
def mkBlogItem (item : JSValue) : Except JsError BlogDiv :=
  match item with
  | .null => .error .typeError
  | .undefined => .error .typeError
  | _ => .ok (.item (disp (getField item "title")) (disp (getField item "author"))
      (disp (getField item "url")))

/-- `renderInsights(newsData, blogsData)` (script.js lines 124-156): if either
element is missing or either argument is not an array, write the placeholder
into each element that exists and return; otherwise clear both, append the
news items (an exception aborts before the blogs loop), then the blog
items. -/
def renderInsights (newsData blogsData : JSValue) (d : Dom) : Dom × Option JsError :=
  match d.newsFeedList, d.blogsContainer with
  | some _, some _ =>
    if isArray newsData && isArray blogsData then
      let nr := buildRows mkNewsItem (jsElems newsData)
      match buildErr mkNewsItem (jsElems newsData) with
      | some e => ({ d with newsFeedList := some nr, blogsContainer := some [] }, some e)
      | none =>
        ({ d with newsFeedList := some nr,
                  blogsContainer := some (buildRows mkBlogItem (jsElems blogsData)) },
         buildErr mkBlogItem (jsElems blogsData))
    else
      ({ d with newsFeedList := some [.message dataUnavailable],
                blogsContainer := some [.message dataUnavailable] }, none)
  | _, _ =>
    ({ d with newsFeedList := d.newsFeedList.map (fun _ => [NewsLi.message dataUnavailable]),
              blogsContainer := d.blogsContainer.map
                (fun _ => [BlogDiv.message dataUnavailable]) }, none)

/-- The compiled-in credential of script.js (line 161). -/
def API_KEY : String := "EI339Y34FX1BR93U"

/-- The catch handler of `fetchMarketData` (script.js lines 195-204): the
error message is written into the gainers body, the losers body and the
breadth widget, each only when the element exists. -/
def writeErrorSinks (msg : String) (d : Dom) : Dom :=
  { d with gainersBody := d.gainersBody.map (fun _ => [Tr.message msg]),
           losersBody := d.losersBody.map (fun _ => [Tr.message msg]),
           breadthWidget := d.breadthWidget.map (fun _ => BreadthContent.message msg) }

/-- A normalized mover record: `{symbol, price, change}` as built by the
mapping step of `fetchMarketData` (symbol is `item.ticker` verbatim, price
and change are the `toFixed(2)` strings). -/
structure MoverRecord where
  symbol : JSValue
  price : String
  change : String

/-- The per-entry normalization of `fetchMarketData` (script.js lines
175-179): symbol copied verbatim from `ticker`; `price` coerced to a string
and parsed with `parseFloat`, then formatted with `toFixed(2)`;
`change_percentage` must be a string (a `.replace` call on anything else
throws a TypeError, as does any property access when the entry itself is
nullish), has its first `%` removed, and is parsed and formatted the same
way. -/
def normalizeEntry (item : JSValue) : Except JsError MoverRecord :=
  match item with
  | .null => .error .typeError
  | .undefined => .error .typeError
  | _ =>
    match getField item "change_percentage" with
    | .str cp =>
      .ok { symbol := getField item "ticker",
            price := toFixed2 (parseFloatJS (disp (getField item "price"))),
            change := toFixed2 (parseFloatJS (stripFirstPercent cp)) }
    | _ => .error .typeError

/-- Normalization of a whole array, aborting at the first throwing entry. -/
def normalizeAll : List JSValue → Except JsError (List MoverRecord)
  | [] => .ok []
  | x :: r =>
    match normalizeEntry x with
    | .error e => .error e
    | .ok m =>
      match normalizeAll r with
      | .error e => .error e
      | .ok ms => .ok (m :: ms)

/-- The JSON object a normalized record becomes when handed to
`renderTopMovers`. -/
def recordToJS (m : MoverRecord) : JSValue :=
  .obj [("symbol", m.symbol), ("price", .str m.price), ("change", .str m.change)]

/-- The `{ gainers: ..., losers: ... }` argument object of the
`renderTopMovers` calls in `fetchMarketData`. -/
def mkMovers (gs ls : List MoverRecord) : JSValue :=
  .obj [("gainers", .arr (gs.map recordToJS)), ("losers", .arr (ls.map recordToJS))]

/-- A movers object over raw element lists (used to state claims about
`renderTopMovers` directly). -/
def mkMoversRaw (gs ls : List JSValue) : JSValue :=
  .obj [("gainers", .arr gs), ("losers", .arr ls)]

/-- The mock breadth snapshot rendered on every success path (script.js
line 192). -/
def mockBreadthData : BreadthCounts := ⟨2500, 500, 100⟩

/-- The try block of `fetchMarketData` (script.js lines 163-194), applied to
the decoded JSON response: credential placeholder check; property access on
a nullish response throws; a truthy `Error Message` or `Note` field is
re-thrown as an Error carrying that field's string; a response with both
`top_gainers` and `top_losers` arrays is normalized (a normalization throw
aborts before anything is rendered) and rendered, any other shape renders
the empty movers object; finally the mock breadth snapshot is rendered. -/
def fetchBody (resp : JSValue) (d : Dom) : Dom × Option JsError :=
  if API_KEY = "YOUR_ALPHA_VANTAGE_API_KEY" then
    (d, some (.userError "Please provide a valid API key."))
  else if isNullish resp then (d, some .typeError)
  else
    let em := getField resp "Error Message"
    let note := getField resp "Note"
    if jsTruthy em || jsTruthy note then
      (d, some (.userError (disp (if jsTruthy em then em else note))))
    else if jsTruthy resp && isArray (getField resp "top_gainers")
        && isArray (getField resp "top_losers") then
      match normalizeAll (jsElems (getField resp "top_gainers")) with
      | .error e => (d, some e)
      | .ok gs =>
        match normalizeAll (jsElems (getField resp "top_losers")) with
        | .error e => (d, some e)
        | .ok ls =>
          let r := renderTopMovers (mkMovers gs ls) d
          match r.2 with
          | some e => (r.1, some e)
          | none => (renderMarketBreadth (some mockBreadthData) r.1, none)
    else
      let r := renderTopMovers (mkMovers [] []) d
      match r.2 with
      | some e => (r.1, some e)
      | none => (renderMarketBreadth (some mockBreadthData) r.1, none)

/-- `fetchMarketData` applied to a decoded JSON response: the try block, with
any escaped exception converted by the catch handler into the uniform error
text written into the three sinks.  (Transport-level failures and JSON
decode failures reach the same catch handler with an engine message; they
carry no decoded response and are outside this embedding.) -/
def fetchMarketData (resp : JSValue) (d : Dom) : Dom :=
  match fetchBody resp d with
  | (d1, none) => d1
  | (d1, some e) => writeErrorSinks (errMessage e) d1

/-- A document in which every sink element exists (witness instances). -/
def domFull : Dom :=
  ⟨some [], some [], some (.message "init"), some none, some [], some []⟩

/-- A document with no sink elements at all. -/
def domEmpty : Dom := ⟨none, none, none, none, none, none⟩

/-- A document whose gainers table is missing but whose other sinks exist. -/
def domNoGainers : Dom :=
  ⟨none, some [], some (.message "init"), some none, some [], some []⟩

theorem buildRows_of_ok {α : Type} (f : JSValue → Except JsError α) (g : JSValue → α)
    (xs : List JSValue) (h : ∀ x ∈ xs, f x = .ok (g x)) :
    buildRows f xs = xs.map g := by
  induction xs with
  | nil => rfl
  | cons x r ih =>
    have hx := h x (List.mem_cons_self x r)
    have hr := ih (fun y hy => h y (List.mem_cons_of_mem x hy))
    simp [buildRows, hx, hr]

theorem buildErr_of_ok {α : Type} (f : JSValue → Except JsError α) (g : JSValue → α)
    (xs : List JSValue) (h : ∀ x ∈ xs, f x = .ok (g x)) :
    buildErr f xs = none := by
  induction xs with
  | nil => rfl
  | cons x r ih =>
    have hx := h x (List.mem_cons_self x r)
    have hr := ih (fun y hy => h y (List.mem_cons_of_mem x hy))
    simp [buildErr, hx, hr]

theorem mkMoverRow_record (b : Bool) (x : JSValue) (h : isRecord x = true) :
    mkMoverRow b x = .ok (moverTr x b) := by
  cases x <;> simp_all [isRecord, mkMoverRow]

theorem digitChar_isDigit (d : Nat) : (digitChar d).isDigit = true := by
  unfold digitChar
  have h : d % 10 < 10 := Nat.mod_lt _ (by norm_num)
  revert h
  generalize d % 10 = r
  intro h
  interval_cases r <;> decide

theorem digitChar_ne_dot (d : Nat) : digitChar d ≠ '.' := by
  unfold digitChar
  have h : d % 10 < 10 := Nat.mod_lt _ (by norm_num)
  revert h
  generalize d % 10 = r
  intro h
  interval_cases r <;> decide

theorem padDigits_two (m : Nat) : padDigits 2 m = [digitChar (m / 10), digitChar m] := rfl

theorem natToDigitsAux_no_dot : ∀ fuel n : Nat, ∀ c ∈ natToDigitsAux fuel n, c ≠ '.' := by
  intro fuel
  induction fuel with
  | zero => intro n c hc; simp [natToDigitsAux] at hc
  | succ f ih =>
    intro n c hc
    rw [natToDigitsAux] at hc
    by_cases h : n < 10
    · rw [if_pos h] at hc
      simp at hc
      subst hc
      exact digitChar_ne_dot n
    · rw [if_neg h] at hc
      rcases List.mem_append.mp hc with h1 | h2
      · exact ih _ c h1
      · simp at h2
        subst h2
        exact digitChar_ne_dot (n % 10)

theorem natToDigits_no_dot (n : Nat) : ∀ c ∈ natToDigits n, c ≠ '.' :=
  natToDigitsAux_no_dot (n + 1) n

theorem toFixed2_eval (q : ℚ) (n : ℕ) (h0 : ¬ q < 0) (hf : ⌊|q| * 100 + 1 / 2⌋ = (n : ℤ)) :
    toFixed2 (.fin q) = natToString (n / 100) ++ "." ++ String.mk (padDigits 2 n) := by
  simp only [toFixed2]
  rw [hf, if_neg h0, Int.toNat_natCast]
  rfl

theorem toFixed2_parseFloat_ten : toFixed2 (parseFloatJS "10") = "10.00" := by
  have h1 : parseFloatJS "10" = .fin (1 * ((10 : ℕ) : ℚ) * (10 : ℚ) ^ (0 : ℤ)) := rfl
  have h2 : (1 * ((10 : ℕ) : ℚ) * (10 : ℚ) ^ (0 : ℤ)) = 10 := by norm_num
  rw [h1, h2, toFixed2_eval 10 1000 (by norm_num) (by norm_num)]
  rfl

theorem toFixed2_parseFloat_fivefive :
    toFixed2 (parseFloatJS (stripFirstPercent "5.5%")) = "5.50" := by
  have h1 : parseFloatJS (stripFirstPercent "5.5%") =
      .fin (1 * (((5 : ℕ) : ℚ) + ((5 : ℕ) : ℚ) / (10 : ℚ) ^ (1 : ℕ)) * (10 : ℚ) ^ (0 : ℤ)) := rfl
  have h2 : (1 * (((5 : ℕ) : ℚ) + ((5 : ℕ) : ℚ) / (10 : ℚ) ^ (1 : ℕ)) * (10 : ℚ) ^ (0 : ℤ))
      = 11 / 2 := by norm_num
  have h3 : ⌊|(11 / 2 : ℚ)| * 100 + 1 / 2⌋ = ((550 : ℕ) : ℤ) := by
    rw [show |(11 / 2 : ℚ)| = 11 / 2 from abs_of_nonneg (by norm_num)]
    norm_num
  rw [h1, h2, toFixed2_eval (11 / 2) 550 (by norm_num) h3]
  rfl

/-- C2: for every raw upstream entry (string-valued `ticker`, `price`,
`change_percentage` fields), normalization copies `ticker` verbatim into
`symbol`, parses `price` with `parseFloat` and formats it with `toFixed(2)`,
and strips the first `%` from `change_percentage` before parsing and
formatting it the same way; a `toFixed(2)` result of a finite number always
ends in a point followed by exactly two decimal digits; in particular
`{ticker:"AAA", price:"10", change_percentage:"5.5%"}` is mapped to
`{symbol:"AAA", price:"10.00", change:"5.50"}`. -/
theorem normalizeEntry_verbatim_two_decimals :
    (∀ t p cp : String,
      normalizeEntry (.obj [("ticker", .str t), ("price", .str p),
          ("change_percentage", .str cp)]) =
        .ok ⟨.str t, toFixed2 (parseFloatJS p),
          toFixed2 (parseFloatJS (stripFirstPercent cp))⟩) ∧
    (∀ q : ℚ, ∃ (pre : String) (a b : Char),
      toFixed2 (JNum.fin q) = pre ++ "." ++ String.mk [a, b] ∧
      a.isDigit = true ∧ b.isDigit = true ∧
      ∀ c ∈ pre.toList, c ≠ '.') ∧
    normalizeEntry (.obj [("ticker", .str "AAA"), ("price", .str "10"),
        ("change_percentage", .str "5.5%")]) =
      .ok ⟨.str "AAA", "10.00", "5.50"⟩ := by
  refine ⟨fun t p cp => rfl, fun q => ?_, ?_⟩
  case refine_2 =>
    rw [show normalizeEntry (.obj [("ticker", .str "AAA"), ("price", .str "10"),
        ("change_percentage", .str "5.5%")]) =
      .ok ⟨.str "AAA", toFixed2 (parseFloatJS "10"),
        toFixed2 (parseFloatJS (stripFirstPercent "5.5%"))⟩ from rfl]
    rw [toFixed2_parseFloat_ten, toFixed2_parseFloat_fivefive]
  refine ⟨(if q < 0 then "-" else "") ++ natToString ((⌊|q| * 100 + 1 / 2⌋).toNat / 100),
    digitChar ((⌊|q| * 100 + 1 / 2⌋).toNat / 10), digitChar (⌊|q| * 100 + 1 / 2⌋).toNat,
    ?_, digitChar_isDigit _, digitChar_isDigit _, ?_⟩
  · show toFixed2 (JNum.fin q) = _
    simp only [toFixed2]
    rw [padDigits_two]
  · intro c hc
    have hc' : c ∈ (if q < 0 then "-" else "").toList ++
        (natToString ((⌊|q| * 100 + 1 / 2⌋).toNat / 100)).toList := hc
    rcases List.mem_append.mp hc' with h1 | h2
    · by_cases hq : q < 0
      · simp [hq] at h1
        subst h1
        decide
      · simp [hq] at h1
    · exact natToDigits_no_dot _ c h2

theorem mockAdvancingPct : jround (jmul (jdiv 2500 (2500 + 500 + 100)) 100) = .fin 81 := by
  rw [jdiv, if_neg (by norm_num : ¬(2500 + 500 + 100 : ℚ) = 0)]
  simp only [jmul, jround]
  have h : ⌊(2500 / (2500 + 500 + 100) : ℚ) * 100 + 1 / 2⌋ = (81 : ℤ) := by
    rw [Int.floor_eq_iff]
    constructor <;> norm_num
  rw [h]
  norm_num

theorem mockDecliningPct : jround (jmul (jdiv 500 (2500 + 500 + 100)) 100) = .fin 16 := by
  rw [jdiv, if_neg (by norm_num : ¬(2500 + 500 + 100 : ℚ) = 0)]
  simp only [jmul, jround]
  have h : ⌊(500 / (2500 + 500 + 100) : ℚ) * 100 + 1 / 2⌋ = (16 : ℤ) := by
    rw [Int.floor_eq_iff]
    constructor <;> norm_num
  rw [h]
  norm_num

theorem mockUnchangedPct : jround (jmul (jdiv 100 (2500 + 500 + 100)) 100) = .fin 3 := by
  rw [jdiv, if_neg (by norm_num : ¬(2500 + 500 + 100 : ℚ) = 0)]
  simp only [jmul, jround]
  have h : ⌊(100 / (2500 + 500 + 100) : ℚ) * 100 + 1 / 2⌋ = (3 : ℤ) := by
    rw [Int.floor_eq_iff]
    constructor <;> norm_num
  rw [h]
  norm_num

/-- C6: for the fixed mock breadth snapshot `{advancing: 2500, declining: 500,
unchanged: 100}` (always rendered on the success path), `renderMarketBreadth`
computes each bucket's share as the count divided by the sum of the three
counts, times 100, rounded with `Math.round`, and reports 81% advancing,
16% declining and 3% unchanged in the widget. -/
theorem renderMarketBreadth_mock_81_16_3 (d : Dom) (w : BreadthContent)
    (hw : d.breadthWidget = some w) :
    (renderMarketBreadth (some mockBreadthData) d).breadthWidget =
      some (.percentages
        (jround (jmul (jdiv 2500 (2500 + 500 + 100)) 100))
        (jround (jmul (jdiv 500 (2500 + 500 + 100)) 100))
        (jround (jmul (jdiv 100 (2500 + 500 + 100)) 100))) ∧
    jround (jmul (jdiv 2500 (2500 + 500 + 100)) 100) = .fin 81 ∧
    jround (jmul (jdiv 500 (2500 + 500 + 100)) 100) = .fin 16 ∧
    jround (jmul (jdiv 100 (2500 + 500 + 100)) 100) = .fin 3 := by
  refine ⟨?_, mockAdvancingPct, mockDecliningPct, mockUnchangedPct⟩
  simp [renderMarketBreadth, hw, mockBreadthData]

theorem renderMarketBreadth_mock_81_16_3_witness :
    (renderMarketBreadth (some mockBreadthData) domFull).breadthWidget =
      some (.percentages
        (jround (jmul (jdiv 2500 (2500 + 500 + 100)) 100))
        (jround (jmul (jdiv 500 (2500 + 500 + 100)) 100))
        (jround (jmul (jdiv 100 (2500 + 500 + 100)) 100))) ∧
    jround (jmul (jdiv 2500 (2500 + 500 + 100)) 100) = .fin 81 ∧
    jround (jmul (jdiv 500 (2500 + 500 + 100)) 100) = .fin 16 ∧
    jround (jmul (jdiv 100 (2500 + 500 + 100)) 100) = .fin 3 :=
  renderMarketBreadth_mock_81_16_3 domFull (.message "init") rfl

theorem jdiv_zero_total_nonfinite (x : ℚ) :
    isFiniteJ (jround (jmul (jdiv x 0) 100)) = false := by
  rw [jdiv, if_pos rfl]
  by_cases h0 : x = 0
  · simp [h0, jmul, jround, isFiniteJ]
  · by_cases hp : 0 < x
    · simp [h0, hp, jmul, jround, isFiniteJ]
    · simp [h0, hp, jmul, jround, isFiniteJ]

/-- C8: for every breadth record whose three counts sum to zero,
`renderMarketBreadth` performs the unguarded division by the zero total and
writes the three percentage spans with non-finite values (NaN or a signed
infinity) into the widget — it neither raises an explicit error nor writes a
placeholder. -/
theorem renderMarketBreadth_zero_total_nonfinite (b : BreadthCounts)
    (h : b.advancing + b.declining + b.unchanged = 0) (d : Dom) (w : BreadthContent)
    (hw : d.breadthWidget = some w) :
    ∃ pa pd pu : JNum,
      (renderMarketBreadth (some b) d).breadthWidget = some (.percentages pa pd pu) ∧
      isFiniteJ pa = false ∧ isFiniteJ pd = false ∧ isFiniteJ pu = false := by
  refine ⟨jround (jmul (jdiv b.advancing 0) 100), jround (jmul (jdiv b.declining 0) 100),
    jround (jmul (jdiv b.unchanged 0) 100), ?_,
    jdiv_zero_total_nonfinite _, jdiv_zero_total_nonfinite _, jdiv_zero_total_nonfinite _⟩
  rw [renderMarketBreadth, hw, h]

theorem renderMarketBreadth_zero_total_nonfinite_witness :
    ∃ pa pd pu : JNum,
      (renderMarketBreadth (some ⟨0, 0, 0⟩) domFull).breadthWidget =
        some (.percentages pa pd pu) ∧
      isFiniteJ pa = false ∧ isFiniteJ pd = false ∧ isFiniteJ pu = false :=
  renderMarketBreadth_zero_total_nonfinite ⟨0, 0, 0⟩ (by norm_num) domFull
    (.message "init") rfl

theorem moversValid_mkMoversRaw (gs ls : List JSValue) :
    moversValid (mkMoversRaw gs ls) = true := rfl

theorem gainers_mkMoversRaw (gs ls : List JSValue) :
    jsElems (getField (mkMoversRaw gs ls) "gainers") = gs := rfl

theorem losers_mkMoversRaw (gs ls : List JSValue) :
    jsElems (getField (mkMoversRaw gs ls) "losers") = ls := rfl

/-- C1: for every movers object whose `gainers` and `losers` fields are
arrays of records, `renderTopMovers` clears both table sinks and appends
exactly one row per input record to the corresponding sink (for each sink
element that exists), preserving the input order of each array; gainer rows
carry the `price-up` class and loser rows the distinct `price-down` class,
and no exception escapes. -/
theorem renderTopMovers_one_row_per_record (gs ls : List JSValue) (d : Dom)
    (hg : ∀ x ∈ gs, isRecord x = true) (hl : ∀ x ∈ ls, isRecord x = true) :
    renderTopMovers (mkMoversRaw gs ls) d =
      ({ d with
          gainersBody := d.gainersBody.map (fun _ => gs.map (fun it =>
            Tr.mover (disp (getField it "symbol")) (disp (getField it "price"))
              (disp (getField it "change")) "price-up")),
          losersBody := d.losersBody.map (fun _ => ls.map (fun it =>
            Tr.mover (disp (getField it "symbol")) (disp (getField it "price"))
              (disp (getField it "change")) "price-down")) }, none) := by
  have hgr : buildRows (mkMoverRow true) gs = gs.map (fun it => moverTr it true) :=
    buildRows_of_ok _ _ _ (fun x hx => mkMoverRow_record true x (hg x hx))
  have hge : buildErr (mkMoverRow true) gs = none :=
    buildErr_of_ok _ (fun it => moverTr it true) _
      (fun x hx => mkMoverRow_record true x (hg x hx))
  have hlr : buildRows (mkMoverRow false) ls = ls.map (fun it => moverTr it false) :=
    buildRows_of_ok _ _ _ (fun x hx => mkMoverRow_record false x (hl x hx))
  have hle : buildErr (mkMoverRow false) ls = none :=
    buildErr_of_ok _ (fun it => moverTr it false) _
      (fun x hx => mkMoverRow_record false x (hl x hx))
  rcases d with ⟨gB, lB, bw, cc, nf, bc⟩
  cases gB <;> cases lB <;>
    simp [renderTopMovers, moversValid_mkMoversRaw, gainers_mkMoversRaw,
      losers_mkMoversRaw, clearMovers, appendGainers, appendLosers,
      hgr, hge, hlr, hle, moverTr]

theorem renderTopMovers_one_row_per_record_witness :
    renderTopMovers (mkMoversRaw [JSValue.obj [("symbol", .str "AAA"),
        ("price", .str "10.00"), ("change", .str "5.50")]] []) domFull =
      ({ domFull with
          gainersBody := some [Tr.mover "AAA" "10.00" "5.50" "price-up"],
          losersBody := some [] }, none) := by
  rw [renderTopMovers_one_row_per_record
    [JSValue.obj [("symbol", .str "AAA"), ("price", .str "10.00"), ("change", .str "5.50")]] []
    domFull (by intro x hx; simp at hx; subst hx; rfl) (by intro x hx; simp at hx)]
  rfl

/-- C5 (counterexample): the input `{gainers: [null], losers: []}` passes the
shape check, and building its one gainer row reads `item.symbol` on `null`,
so with both table elements present `renderTopMovers` lets a TypeError
escape and writes no placeholder — refuting the claim that the function
never throws and is total over any input shape. -/
theorem renderTopMovers_throws_on_null_item :
    renderTopMovers (.obj [("gainers", .arr [.null]), ("losers", .arr [])]) domFull =
      ({ domFull with gainersBody := some [], losersBody := some [] },
       some .typeError) := rfl

/-- C5 (amended): for every input that fails the shape check (null, a
non-object, or an object whose `gainers` or `losers` is not an array),
`renderTopMovers` throws no exception and writes the fixed
"Data unavailable." placeholder row into each of the two table sinks that
exists, then returns; totality does not extend to shape-valid inputs whose
arrays contain nullish items (see the counterexample). -/
theorem renderTopMovers_invalid_placeholder (v : JSValue) (h : moversValid v = false)
    (d : Dom) :
    renderTopMovers v d =
      ({ d with gainersBody := d.gainersBody.map (fun _ => [Tr.message dataUnavailable]),
                losersBody := d.losersBody.map (fun _ => [Tr.message dataUnavailable]) },
       none) := by
  simp [renderTopMovers, h]

theorem renderTopMovers_invalid_placeholder_witness :
    moversValid JSValue.null = false ∧
    renderTopMovers JSValue.null domFull =
      ({ domFull with gainersBody := some [Tr.message dataUnavailable],
                      losersBody := some [Tr.message dataUnavailable] }, none) := by
  refine ⟨rfl, ?_⟩
  rw [renderTopMovers_invalid_placeholder JSValue.null rfl domFull]
  rfl

theorem renderTopMovers_idem (v : JSValue) (d : Dom) :
    (renderTopMovers v (renderTopMovers v d).1).1 = (renderTopMovers v d).1 := by
  rcases d with ⟨gB, lB, bw, cc, nf, bc⟩
  cases hv : moversValid v
  · cases gB <;> cases lB <;> simp [renderTopMovers, hv]
  · cases gB <;> cases lB <;>
      cases hge : buildErr (mkMoverRow true) (jsElems (getField v "gainers")) <;>
      simp [renderTopMovers, hv, clearMovers, appendGainers, appendLosers, hge]

theorem renderMarketBreadth_idem (b : Option BreadthCounts) (d : Dom) :
    renderMarketBreadth b (renderMarketBreadth b d) = renderMarketBreadth b d := by
  rcases d with ⟨gB, lB, bw, cc, nf, bc⟩
  cases bw <;> cases b <;> simp [renderMarketBreadth]

theorem renderMarketChart_idem (c : ChartConfig) (d : Dom) :
    renderMarketChart c (renderMarketChart c d) = renderMarketChart c d := by
  rcases d with ⟨gB, lB, bw, cc, nf, bc⟩
  cases cc <;> simp [renderMarketChart]

theorem renderInsights_idem (n bl : JSValue) (d : Dom) :
    (renderInsights n bl (renderInsights n bl d).1).1 = (renderInsights n bl d).1 := by
  rcases d with ⟨gB, lB, bw, cc, nf, bc⟩
  cases nf <;> cases bc <;>
    cases hv : (isArray n && isArray bl) <;>
    cases hne : buildErr mkNewsItem (jsElems n) <;>
    simp [renderInsights, hv, hne]

/-- C7: calling any of the four render functions twice in succession with the
same input leaves the document identical to the state after a single call
(clear-then-write semantics); for the two functions that can throw, the
document component of the result is compared. -/
theorem render_functions_idempotent (d : Dom) :
    (∀ v : JSValue,
      (renderTopMovers v (renderTopMovers v d).1).1 = (renderTopMovers v d).1) ∧
    (∀ b : Option BreadthCounts,
      renderMarketBreadth b (renderMarketBreadth b d) = renderMarketBreadth b d) ∧
    (∀ c : ChartConfig,
      renderMarketChart c (renderMarketChart c d) = renderMarketChart c d) ∧
    (∀ n bl : JSValue,
      (renderInsights n bl (renderInsights n bl d).1).1 = (renderInsights n bl d).1) :=
  ⟨fun v => renderTopMovers_idem v d, fun b => renderMarketBreadth_idem b d,
   fun c => renderMarketChart_idem c d, fun n bl => renderInsights_idem n bl d⟩

theorem truthy_field_not_nullish (v : JSValue) (f : String)
    (h : jsTruthy (getField v f) = true) : isNullish v = false := by
  cases v <;> simp_all [getField, jsTruthy, isNullish]

theorem renderTopMovers_empty (d : Dom) :
    renderTopMovers (mkMovers [] []) d =
      ({ d with gainersBody := d.gainersBody.map (fun _ => ([] : List Tr)),
                losersBody := d.losersBody.map (fun _ => ([] : List Tr)) }, none) := by
  have h1 : moversValid (mkMovers [] []) = true := rfl
  have h2 : jsElems (getField (mkMovers [] []) "gainers") = [] := rfl
  have h3 : jsElems (getField (mkMovers [] []) "losers") = [] := rfl
  rcases d with ⟨gB, lB, bw, cc, nf, bc⟩
  cases gB <;> cases lB <;>
    simp [renderTopMovers, h1, h2, h3, clearMovers, appendGainers, appendLosers,
      buildRows, buildErr]

theorem renderMarketBreadth_mock_map (d : Dom) :
    renderMarketBreadth (some mockBreadthData) d =
      { d with breadthWidget := d.breadthWidget.map (fun _ => BreadthContent.percentages
          (jround (jmul (jdiv 2500 (2500 + 500 + 100)) 100))
          (jround (jmul (jdiv 500 (2500 + 500 + 100)) 100))
          (jround (jmul (jdiv 100 (2500 + 500 + 100)) 100))) } := by
  rcases d with ⟨gB, lB, bw, cc, nf, bc⟩
  cases bw <;> simp [renderMarketBreadth, mockBreadthData]

theorem fetchMarketData_graceful (resp : JSValue) (d : Dom)
    (hnn : isNullish resp = false)
    (hem : jsTruthy (getField resp "Error Message") = false)
    (hnote : jsTruthy (getField resp "Note") = false)
    (hshape : (jsTruthy resp && isArray (getField resp "top_gainers")
        && isArray (getField resp "top_losers")) = false) :
    fetchMarketData resp d =
      { d with gainersBody := d.gainersBody.map (fun _ => ([] : List Tr)),
               losersBody := d.losersBody.map (fun _ => ([] : List Tr)),
               breadthWidget := d.breadthWidget.map (fun _ => BreadthContent.percentages
                 (jround (jmul (jdiv 2500 (2500 + 500 + 100)) 100))
                 (jround (jmul (jdiv 500 (2500 + 500 + 100)) 100))
                 (jround (jmul (jdiv 100 (2500 + 500 + 100)) 100))) } := by
  rw [fetchMarketData]
  simp only [fetchBody, hnn, hem, hnote,
    if_neg (by decide : ¬ (API_KEY = "YOUR_ALPHA_VANTAGE_API_KEY"))]
  simp only [Bool.false_eq_true, if_false, Bool.or_self, hshape,
    renderTopMovers_empty, renderMarketBreadth_mock_map]

/-- C3: for every decoded JSON response whose `Note` field is a truthy
(non-empty) string while `Error Message` is not truthy, `fetchMarketData`
renders no mover rows: the thrown Error carries exactly the upstream `Note`
string, and the catch handler writes exactly that message into each of the
three sinks that exists (gainers table body, losers table body, breadth
widget), leaving everything else untouched. -/
theorem fetchMarketData_note_message (resp : JSValue) (s : String) (d : Dom)
    (hnote : getField resp "Note" = .str s) (hs : s ≠ "")
    (hem : jsTruthy (getField resp "Error Message") = false) :
    fetchMarketData resp d =
      { d with gainersBody := d.gainersBody.map (fun _ => [Tr.message s]),
               losersBody := d.losersBody.map (fun _ => [Tr.message s]),
               breadthWidget := d.breadthWidget.map (fun _ => BreadthContent.message s) } := by
  have htr : jsTruthy (getField resp "Note") = true := by simp [hnote, jsTruthy, hs]
  have hnn : isNullish resp = false := truthy_field_not_nullish resp "Note" htr
  rw [fetchMarketData]
  simp only [fetchBody, hnn, hem, htr, hnote,
    if_neg (by decide : ¬ (API_KEY = "YOUR_ALPHA_VANTAGE_API_KEY"))]
  simp [writeErrorSinks, errMessage, disp, jsTruthy, hs]

theorem fetchMarketData_note_message_witness :
    fetchMarketData (.obj [("Note", .str "rate limit exceeded")]) domFull =
      { domFull with gainersBody := some [Tr.message "rate limit exceeded"],
                     losersBody := some [Tr.message "rate limit exceeded"],
                     breadthWidget := some (.message "rate limit exceeded") } := by
  rw [fetchMarketData_note_message (.obj [("Note", .str "rate limit exceeded")])
    "rate limit exceeded" domFull rfl (by decide) rfl]
  rfl

/-- C4 (counterexample): the decoded JSON response `null` has no
error/rate-limit field and no movers arrays, yet `fetchMarketData` does not
invoke `renderTopMovers({gainers: [], losers: []})`: the property read
`moversData['Error Message']` throws a TypeError on `null`, the catch
handler runs, and the gainers sink ends up with a single message row rather
than zero rows. -/
theorem fetchMarketData_null_not_graceful :
    (fetchMarketData .null domFull).gainersBody ≠ some [] ∧
    ∃ m : String, (fetchMarketData .null domFull).gainersBody = some [Tr.message m] :=
  ⟨by decide, "TypeError", rfl⟩

/-- C4 (amended): for every decoded JSON response other than `null` that has
no truthy error/rate-limit field and whose `top_gainers` or `top_losers`
fails the array shape check, `fetchMarketData` does not fail: it invokes
`renderTopMovers` on the empty movers object `{gainers: [], losers: []}`,
then renders the mock breadth snapshot; both table sinks end up cleared with
zero rows — no "Data unavailable." placeholder — distinct from the
malformed-argument path. -/
theorem fetchMarketData_graceful_empty (resp : JSValue) (d : Dom)
    (hnn : isNullish resp = false)
    (hem : jsTruthy (getField resp "Error Message") = false)
    (hnote : jsTruthy (getField resp "Note") = false)
    (hshape : (jsTruthy resp && isArray (getField resp "top_gainers")
        && isArray (getField resp "top_losers")) = false) :
    fetchMarketData resp d =
      renderMarketBreadth (some mockBreadthData) (renderTopMovers (mkMovers [] []) d).1 ∧
    (renderTopMovers (mkMovers [] []) d).1.gainersBody =
      d.gainersBody.map (fun _ => ([] : List Tr)) ∧
    (renderTopMovers (mkMovers [] []) d).1.losersBody =
      d.losersBody.map (fun _ => ([] : List Tr)) := by
  refine ⟨?_, by rw [renderTopMovers_empty], by rw [renderTopMovers_empty]⟩
  rw [fetchMarketData_graceful resp d hnn hem hnote hshape, renderTopMovers_empty,
    renderMarketBreadth_mock_map]

theorem fetchMarketData_graceful_empty_witness :
    fetchMarketData (.obj []) domFull =
      renderMarketBreadth (some mockBreadthData)
        (renderTopMovers (mkMovers [] []) domFull).1 ∧
    (renderTopMovers (mkMovers [] []) domFull).1.gainersBody = some [] ∧
    (renderTopMovers (mkMovers [] []) domFull).1.losersBody = some [] :=
  fetchMarketData_graceful_empty (.obj []) domFull rfl rfl rfl rfl

/-- C10 (implicit): the upstream-rejection check tests only truthiness, so a
response in which `Error Message` or `Note` is present but equal to the
empty string is not treated as an upstream rejection; with the movers arrays
missing, such a response takes the graceful-degradation path — cleared table
sinks and the mock breadth render — instead of the error path. -/
theorem fetchMarketData_empty_error_fields (resp : JSValue) (d : Dom)
    (hem : getField resp "Error Message" = .str "" ∨
      getField resp "Error Message" = .undefined)
    (hnote : getField resp "Note" = .str "" ∨ getField resp "Note" = .undefined)
    (hpresent : getField resp "Error Message" = .str "" ∨ getField resp "Note" = .str "")
    (hshape : (jsTruthy resp && isArray (getField resp "top_gainers")
        && isArray (getField resp "top_losers")) = false) :
    fetchMarketData resp d =
      { d with gainersBody := d.gainersBody.map (fun _ => ([] : List Tr)),
               losersBody := d.losersBody.map (fun _ => ([] : List Tr)),
               breadthWidget := d.breadthWidget.map (fun _ => BreadthContent.percentages
                 (jround (jmul (jdiv 2500 (2500 + 500 + 100)) 100))
                 (jround (jmul (jdiv 500 (2500 + 500 + 100)) 100))
                 (jround (jmul (jdiv 100 (2500 + 500 + 100)) 100))) } := by
  have hem' : jsTruthy (getField resp "Error Message") = false := by
    rcases hem with h | h <;> simp [h, jsTruthy]
  have hnote' : jsTruthy (getField resp "Note") = false := by
    rcases hnote with h | h <;> simp [h, jsTruthy]
  have hnn : isNullish resp = false := by
    rcases hpresent with h | h <;> cases resp <;> simp_all [getField, isNullish]
  exact fetchMarketData_graceful resp d hnn hem' hnote' hshape

theorem fetchMarketData_empty_error_fields_witness :
    fetchMarketData (.obj [("Note", .str "")]) domFull =
      { domFull with gainersBody := some [], losersBody := some [],
                     breadthWidget := some (.percentages (.fin 81) (.fin 16) (.fin 3)) } := by
  rw [fetchMarketData_empty_error_fields (.obj [("Note", .str "")]) domFull
    (Or.inr rfl) (Or.inl rfl) (Or.inr rfl) rfl]
  rw [mockAdvancingPct, mockDecliningPct, mockUnchangedPct]
  rfl

/-- C9 (implicit): every DOM sink access in `renderTopMovers` and in the
top-level catch handler of `fetchMarketData` is guarded (optional chaining
or a presence check), so absent elements cause no exception: with both table
elements absent `renderTopMovers` leaves the document unchanged and throws
nothing; the catch handler's write leaves each absent sink absent and writes
the message row into each sink that exists; and with the gainers table
absent, the loser rows are still written (even when the gainers array holds
items whose row construction would throw, since the optional call
short-circuits). -/
theorem dom_sink_access_guarded (v : JSValue) (msg : String) (gs ls : List JSValue)
    (d : Dom) :
    (d.gainersBody = none → d.losersBody = none → renderTopMovers v d = (d, none)) ∧
    ((writeErrorSinks msg d).gainersBody = d.gainersBody.map (fun _ => [Tr.message msg]) ∧
     (writeErrorSinks msg d).losersBody = d.losersBody.map (fun _ => [Tr.message msg]) ∧
     (writeErrorSinks msg d).breadthWidget =
       d.breadthWidget.map (fun _ => BreadthContent.message msg)) ∧
    (d.gainersBody = none → (∀ x ∈ ls, isRecord x = true) →
      (renderTopMovers (mkMoversRaw gs ls) d).1.losersBody =
        d.losersBody.map (fun _ => ls.map (fun it => moverTr it false)) ∧
      (renderTopMovers (mkMoversRaw gs ls) d).2 = none) := by
  rcases d with ⟨gB, lB, bw, cc, nf, bc⟩
  refine ⟨?_, ⟨rfl, rfl, rfl⟩, ?_⟩
  · intro h1 h2
    simp only at h1 h2
    subst h1
    subst h2
    cases hv : moversValid v <;>
      simp [renderTopMovers, hv, clearMovers, appendGainers, appendLosers]
  · intro h1 hrec
    simp only at h1
    subst h1
    have hlr : buildRows (mkMoverRow false) ls = ls.map (fun it => moverTr it false) :=
      buildRows_of_ok _ _ _ (fun x hx => mkMoverRow_record false x (hrec x hx))
    have hle : buildErr (mkMoverRow false) ls = none :=
      buildErr_of_ok _ (fun it => moverTr it false) _
        (fun x hx => mkMoverRow_record false x (hrec x hx))
    cases lB <;>
      simp [renderTopMovers, moversValid_mkMoversRaw, losers_mkMoversRaw, clearMovers,
        appendGainers, appendLosers, hlr, hle]

theorem dom_sink_access_guarded_witness :
    renderTopMovers (.str "x") domEmpty = (domEmpty, none) ∧
    (writeErrorSinks "boom" domNoGainers).gainersBody = none ∧
    (renderTopMovers (mkMoversRaw [JSValue.null]
        [.obj [("symbol", .str "S"), ("price", .str "1.00"), ("change", .str "0.10")]])
        domNoGainers).1.losersBody = some [Tr.mover "S" "1.00" "0.10" "price-down"] ∧
    (renderTopMovers (mkMoversRaw [JSValue.null]
        [.obj [("symbol", .str "S"), ("price", .str "1.00"), ("change", .str "0.10")]])
        domNoGainers).2 = none := by
  have h1 := (dom_sink_access_guarded (.str "x") "boom" [] [] domEmpty).1 rfl rfl
  have h2 := (dom_sink_access_guarded (.str "x") "boom" [] [] domNoGainers).2.1.1
  have h3 := (dom_sink_access_guarded (.str "x") "boom" [JSValue.null]
    [.obj [("symbol", .str "S"), ("price", .str "1.00"), ("change", .str "0.10")]]
    domNoGainers).2.2 rfl
    (by intro x hx; simp at hx; subst hx; rfl)
  refine ⟨h1, ?_, ?_, h3.2⟩
  · rw [h2]
    rfl
  · rw [h3.1]
    rfl
